import Mathlib

/-!
Verification development for the risk-metrics pipeline of the
`portfolio_optimizer` repository (source of truth:
`src/agents/risk_management/agent.py`, class `RiskManagementAgent`).

Modelling conventions, stated once:
* A pandas return series is modelled as a list of `(timestamp, return)`
  pairs with integer timestamps (`ReturnSeries`).  The spec requires
  strictly increasing, duplicate-free timestamps; a date index and a
  plain integer index are both represented by `Int`.
* Python floats are modelled by `ℚ` wherever the source computation is
  exact rational arithmetic (percentile with linear interpolation,
  means, cumulative products, variances).  Quantities that are
  genuinely irrational in the source (square roots from `std`, the
  fractional power in geometric annualization) are modelled by `ℝ`;
  the definitions producing them are `noncomputable`, but every
  branch that a concrete proof below evaluates reduces definitionally
  without computing any real number.
* `None` returned by a source function is `Option.none`; a float NaN
  produced by a pandas reduction over an empty selection (mean of an
  empty tail) is modelled as `Option.none` in the corresponding result
  field, with a comment at each site.
* An uncaught Python exception is an `Except.error`; functions that
  cannot raise keep a plain `Option` result type.
-/

/-- A date-indexed series of periodic fractional returns:
pairs of (timestamp, return). -/
abbrev ReturnSeries := List (Int × ℚ)

/-- The float values of a pandas series, in index order. -/
def seriesVals (s : ReturnSeries) : List ℚ := s.map Prod.snd

/-- Mean of a list of rationals.  pandas `Series.mean()` of an empty
series is NaN; this total model returns `0` there via the `q / 0 = 0`
convention and is only ever applied to non-empty lists by the
definitions below, except where a comment says otherwise. -/
def meanQ (l : List ℚ) : ℚ := l.sum / (l.length : ℚ)

/-- Sample variance with the pandas default `ddof = 1`
(denominator `n - 1`).  For a single observation pandas yields NaN
(`0/0`); here the `q / 0 = 0` convention yields `0`.  No claim below
depends on the single-observation value. -/
def sampleVarQ (l : List ℚ) : ℚ :=
  (l.map (fun x => (x - meanQ l) ^ 2)).sum / ((l.length : ℚ) - 1)

/-- `np.percentile(a, q)` with the default linear-interpolation method:
with the data sorted ascending and `h = (n-1)*q/100`, interpolate
between the order statistics at `floor h` and `floor h + 1`.
`np.sort` is modelled by insertion sort, which computes the same
ascending permutation. -/
def percentileQ (l : List ℚ) (q : ℚ) : ℚ :=
  let s := List.insertionSort (· ≤ ·) l
  let n := l.length
  let h : ℚ := (((n : ℚ) - 1) * q) / 100
  let i : ℕ := (Int.floor h).toNat
  let frac : ℚ := h - (i : ℚ)
  if i + 1 < n then s.getD i 0 + frac * (s.getD (i + 1) 0 - s.getD i 0)
  else s.getD (n - 1) 0

/-- Result dictionary of `calculate_var` (keys `confidence`, `var_pct`,
`var_dollar`; the formatted `interpretation` string is presentation
only and is not modelled). -/
structure VaRResult where
  confidence : ℚ
  var_pct : ℚ
  var_dollar : ℚ
deriving DecidableEq

/-- The loss fraction computed by `calculate_var`:
`abs(np.percentile(returns, (1-confidence)*100))`. -/
def varLossFraction (l : List ℚ) (confidence : ℚ) : ℚ :=
  |percentileQ l ((1 - confidence) * 100)|

/-- `RiskManagementAgent.calculate_var` (agent.py lines 76-107). -/
def calculate_var (returns : Option ReturnSeries) (confidence pv : ℚ) :
    Option VaRResult :=
  match returns with
  | none => none
  | some s =>
    if s = [] then none
    else
      some { confidence := confidence
             var_pct := varLossFraction (seriesVals s) confidence
             var_dollar := varLossFraction (seriesVals s) confidence * pv }

/-- Result dictionary of `calculate_cvar`.  `cvar_pct`/`cvar_dollar`
are `none` exactly when the source computes `tail_losses.mean()` over
an empty selection, which in pandas is the float NaN. -/
structure CVaRResult where
  confidence : ℚ
  cvar_pct : Option ℚ
  cvar_dollar : Option ℚ
  num_tail_events : ℕ
deriving DecidableEq

/-- `RiskManagementAgent.calculate_cvar` (agent.py lines 111-146).
The source first calls `calculate_var` and reads its `var_pct`; the
series is non-empty on that path, so that value is
`varLossFraction`. -/
def calculate_cvar (returns : Option ReturnSeries) (confidence pv : ℚ) :
    Option CVaRResult :=
  match returns with
  | none => none
  | some s =>
    if s = [] then none
    else
      let v := varLossFraction (seriesVals s) confidence
      let tail := (seriesVals s).filter (fun r => decide (r ≤ -v))
      let cvar_ret : Option ℚ := if tail = [] then none else some (meanQ tail)
      some { confidence := confidence
             cvar_pct := cvar_ret.map (fun c => |c|)
             cvar_dollar := cvar_ret.map (fun c => |c| * pv)
             num_tail_events := tail.length }

/-! Drawdown analyzer.  Intermediate quantities are named definitions
so the theorems below can speak about them individually. -/

/-- `(1 + returns).cumprod()`. -/
def cumReturns (l : List ℚ) : List ℚ :=
  (l.scanl (fun c r => c * (1 + r)) 1).tail

/-- `cummax` of a list (running maximum, same length). -/
def runningMaxQ : List ℚ → List ℚ
  | [] => []
  | x :: xs => xs.scanl (fun m y => max m y) x

/-- The drawdown series `(cum - running_max) / running_max`. -/
def ddListOf (l : List ℚ) : List ℚ :=
  List.zipWith (fun c m => (c - m) / m) (cumReturns l) (runningMaxQ (cumReturns l))

/-- Position of the first occurrence of the minimum (`Series.idxmin`
returns the first minimizing label; we work with positions and map to
labels at the call site). -/
def idxminPos (l : List ℚ) : ℕ :=
  match l.min? with
  | none => 0
  | some m => l.findIdx (fun x => decide (x = m))

/-- Position of the first occurrence of the maximum (`Series.idxmax`). -/
def idxmaxPos (l : List ℚ) : ℕ :=
  match l.max? with
  | none => 0
  | some m => l.findIdx (fun x => decide (x = m))

/-- `drawdown.min()` of the source (a non-positive fraction). -/
def maxDDOf (l : List ℚ) : ℚ :=
  match (ddListOf l).min? with
  | none => 0
  | some m => m

/-- Position of `max_dd_date = drawdown.idxmin()`. -/
def troughPosOf (l : List ℚ) : ℕ := idxminPos (ddListOf l)

/-- Position of `peak_date = running_max[:max_dd_date].idxmax()`:
label slicing in pandas is inclusive of the trough label, hence
`take (troughPos + 1)`. -/
def peakPosOf (l : List ℚ) : ℕ :=
  idxmaxPos ((runningMaxQ (cumReturns l)).take (troughPosOf l + 1))

/-- The recovery label search of agent.py lines 221-226: only entered
when the trough label precedes the last label; `drawdown[max_dd_date:]`
is label-inclusive of the trough; the first label with drawdown `>= 0`
is returned. -/
def recoveryDateOf (s : ReturnSeries) : Option Int :=
  let l := seriesVals s
  let dates := s.map Prod.fst
  let t := troughPosOf l
  if dates.getD t 0 < dates.getD (l.length - 1) 0 then
    ((((dates.drop t).zip ((ddListOf l).drop t)).filter
        (fun p => decide (0 ≤ p.2))).head?).map Prod.fst
  else none

/-- The dictionary `calculate_max_drawdown` attempts to build
(agent.py lines 241-250), minus the two presentation-only formatted
strings.  `recovery_date = none` stands for the string
`Not yet recovered`, `recovery_days = none` for `Ongoing`. -/
structure DrawdownResult where
  max_drawdown : ℚ
  max_drawdown_pct : ℚ
  peak_date : Int
  trough_date : Int
  recovery_date : Option Int
  drawdown_days : Int
  recovery_days : Option Int
deriving DecidableEq

/-- Local variable names bound in the body of `calculate_max_drawdown`
before the result dictionary is evaluated (agent.py lines 201-239). -/
def ddLocals : List String :=
  [r"returns", r"cum_returns", r"running_max", r"drawdown", r"max_dd",
   r"max_dd_date", r"peak_date", r"recovery_date", r"recovery",
   r"recovery_points", r"drawdown_days", r"recovery_days"]

/-- Names the interpretation f-string on agent.py line 249 reads:
`abs(max_dd)`, `peak_date` and `trough_date`. -/
def ddInterpNames : List String := [r"max_dd", r"peak_date", r"trough_date"]

/-- Whether every name read by the interpretation f-string resolves
against the bound locals.  `trough_date` is never bound (the trough
label lives in `max_dd_date`), so this is `false`. -/
def ddInterpCheck : Bool := ddInterpNames.all (fun n => ddLocals.contains n)

/-- The NameError message raised when the interpretation f-string is
evaluated (CPython words the message with quotes around the name;
quotes are elided here). -/
def nameErrTrough : String := "NameError: name trough_date is not defined"

/-- `RiskManagementAgent.calculate_max_drawdown` (agent.py lines
189-250).  `intIndex` models the `isinstance(..., (int, np.integer))`
dispatch on the index element type, which our single `Int` timestamp
model cannot observe.  Python truthiness (`if recovery_date:`) makes
an integer label `0` act like `None`; a date label is always truthy.
Building the result dictionary evaluates the interpretation f-string,
whose name `trough_date` is unbound, so the function raises for every
non-empty input. -/
def calculate_max_drawdown (returns : Option ReturnSeries) (intIndex : Bool) :
    Except String (Option DrawdownResult) :=
  match returns with
  | none => .ok none
  | some s =>
    if s = [] then .ok none
    else
      let l := seriesVals s
      let dates := s.map Prod.fst
      let t := troughPosOf l
      let p := peakPosOf l
      let tDate := dates.getD t 0
      let pDate := dates.getD p 0
      let rDate := recoveryDateOf s
      let dd_days : Int := if intIndex then |tDate - pDate| else tDate - pDate
      let rdTruthy : Bool :=
        match rDate with
        | none => false
        | some d => if intIndex then decide (d ≠ 0) else true
      let rec_days : Option Int :=
        if rdTruthy then
          some (if intIndex then |rDate.getD 0 - tDate| else rDate.getD 0 - tDate)
        else none
      if ddInterpCheck then
        .ok (some
          { max_drawdown := |maxDDOf l|
            max_drawdown_pct := |maxDDOf l|
            peak_date := pDate
            trough_date := tDate
            recovery_date := if rdTruthy then rDate else none
            drawdown_days := dd_days
            recovery_days :=
              match rec_days with
              | some d => if d ≠ 0 then some d else none
              | none => none })
      else .error nameErrTrough

/-! Beta estimator. -/

/-- The numeric part of the full beta dictionary (agent.py lines
375-382).  `r_squared` is the square of the Pearson correlation,
`cov² / (var_asset · var_market)`, which is rational; the correlation
itself and the two classification strings are presentation-level
derived values of `beta`/`r_squared` and are not modelled. -/
structure BetaOk where
  beta : ℚ
  r_squared : ℚ
deriving DecidableEq

/-- The four distinct shapes `calculate_beta` can return: plain `None`
for missing asset data; an error dictionary when the market fetch
fails; the `Insufficient overlapping data` error dictionary; or the
numeric result. -/
inductive BetaOutcome where
  | noData
  | fetchFail
  | insufficientOverlap
  | ok (r : BetaOk)
deriving DecidableEq

/-- The row-wise inner join on matching timestamps performed by
`pd.DataFrame({...}).dropna()`: aligned pairs of (asset return,
market return).  ReturnSeries timestamps are unique per the data
model, so lookup of each asset timestamp in the market series gives
exactly the rows whose timestamp is present in both. -/
def innerJoin (asset mkt : ReturnSeries) : List (ℚ × ℚ) :=
  asset.filterMap (fun p => (List.lookup p.1 mkt).map (fun rm => (p.2, rm)))

/-- Sample covariance of aligned pairs, pandas `ddof = 1`. -/
def sampleCovQ (pairs : List (ℚ × ℚ)) : ℚ :=
  let ma := meanQ (pairs.map Prod.fst)
  let mm := meanQ (pairs.map Prod.snd)
  (pairs.map (fun p => (p.1 - ma) * (p.2 - mm))).sum / ((pairs.length : ℚ) - 1)

/-- `RiskManagementAgent.calculate_beta` (agent.py lines 315-382).
The market series is the response of the external fetch, passed as a
parameter (`none` models a failed fetch). -/
def calculate_beta (asset : ReturnSeries) (mkt : Option ReturnSeries) :
    BetaOutcome :=
  if asset = [] then .noData
  else
    match mkt with
    | none => .fetchFail
    | some m =>
      let combined := innerJoin asset m
      if combined.length < 20 then .insufficientOverlap
      else
        let cov := sampleCovQ combined
        let mvar := sampleVarQ (combined.map Prod.snd)
        let avar := sampleVarQ (combined.map Prod.fst)
        .ok { beta := cov / mvar, r_squared := cov ^ 2 / (avar * mvar) }

/-! Stress tester. -/

/-- Per-scenario result dictionary of `stress_test` (agent.py lines
434-442).  `days_to_recover` stores `int(days)` — truncation toward
zero, which for the non-negative quotient is the floor; the source
rounds `years_to_recover` to one decimal for display (float
round-half-even), a formatting step not modelled — the field holds
the unrounded value `days / 252`. -/
structure StressResult where
  shock_pct : ℚ
  initial_value : ℚ
  shocked_value : ℚ
  loss_amount : ℚ
  loss_pct : ℚ
  days_to_recover : Option Int
  years_to_recover : Option ℚ
deriving DecidableEq

/-- The default scenario table of agent.py lines 406-416 (names kept
verbatim minus the percent sign). -/
def defaultShocks : List (String × ℚ) :=
  [(r"Moderate Decline -5", -5/100), (r"Correction -10", -10/100),
   (r"Bear Market -20", -20/100), (r"Severe Crash -30", -30/100),
   (r"2008 Crisis -50", -50/100), (r"Black Monday -20", -20/100),
   (r"COVID Crash -35", -35/100), (r"Flash Crash -10", -10/100)]

/-- The per-scenario computation of agent.py lines 421-442. -/
def stressOne (pv shock avg : ℚ) : StressResult :=
  let shocked := pv * (1 + shock)
  { shock_pct := shock
    initial_value := pv
    shocked_value := shocked
    loss_amount := pv - shocked
    loss_pct := shock
    days_to_recover := if 0 < avg then some (Int.floor (|shock| / avg)) else none
    years_to_recover := if 0 < avg then some (|shock| / avg / 252) else none }

/-- `RiskManagementAgent.stress_test` (agent.py lines 386-444).  The
scenarios argument defaults to `defaultShocks` when `None`; scenario
names are dictionary keys in the source, hence unique. -/
def stress_test (returns : Option ReturnSeries) (pv : ℚ)
    (scens : Option (List (String × ℚ))) :
    Option (List (String × StressResult)) :=
  match returns with
  | none => none
  | some s =>
    if s = [] then none
    else
      let table := scens.getD defaultShocks
      some (table.map (fun p => (p.1, stressOne pv p.2 (meanQ (seriesVals s)))))

/-! Volatility estimator.  Standard deviations are square roots of
rational variances, hence real-valued; the producing definitions are
noncomputable but reduce definitionally on the branches the proofs
evaluate (absent or empty input). -/

/-- Full-period branch of the `calculate_volatility` dictionary. -/
structure VolFull where
  daily_volatility : ℝ
  annual_volatility : ℝ

/-- Rolling-window branch of the `calculate_volatility` dictionary.
A `none` entry is the NaN pandas emits for the first `window - 1`
positions (`min_periods` defaults to the window size);
`current_volatility` is `iloc[-1]`; the mean/max/min reductions skip
NaN and are `none` when every entry is NaN. -/
structure VolRolling where
  rolling_volatility : List (Option ℝ)
  current_volatility : Option ℝ
  avg_volatility : Option ℝ
  max_volatility : Option ℝ
  min_volatility : Option ℝ
  window_days : ℕ

/-- The two dictionary shapes `calculate_volatility` returns. -/
inductive VolatilityResult where
  | full (r : VolFull)
  | rolling (r : VolRolling)

/-- Annualized rolling standard deviations:
`returns.rolling(window=w).std() * np.sqrt(252)`. -/
noncomputable def rollingVol (l : List ℚ) (w : ℕ) : List (Option ℝ) :=
  (List.range l.length).map (fun i =>
    if w ≤ i + 1 then
      some (Real.sqrt ((sampleVarQ ((l.take (i + 1)).drop (i + 1 - w)) : ℚ) : ℝ) *
        Real.sqrt 252)
    else none)

/-- Mean of a list of reals. -/
noncomputable def meanR (l : List ℝ) : ℝ := l.sum / (l.length : ℝ)

/-- `RiskManagementAgent.calculate_volatility` (agent.py lines
150-185).  `returns.std()` is the sample standard deviation
(`ddof = 1`), annualized by `np.sqrt(252)`. -/
noncomputable def calculate_volatility (returns : Option ReturnSeries)
    (window : Option ℕ) : Option VolatilityResult :=
  match returns with
  | none => none
  | some s =>
    if s = [] then none
    else
      let l := seriesVals s
      match window with
      | none =>
        some (.full
          { daily_volatility := Real.sqrt ((sampleVarQ l : ℚ) : ℝ)
            annual_volatility := Real.sqrt ((sampleVarQ l : ℚ) : ℝ) * Real.sqrt 252 })
      | some w =>
        let rv := rollingVol l w
        let present := rv.filterMap id
        some (.rolling
          { rolling_volatility := rv
            current_volatility := rv.getLastD none
            avg_volatility := if present.isEmpty then none else some (meanR present)
            max_volatility := present.max?
            min_volatility := present.min?
            window_days := w })

/-! Sharpe estimator. -/

/-- Rating strings of agent.py lines 291-302. -/
def ratingExceptional : String := "Exceptional"

/-- Rating string for sharpe in (2, 3]. -/
def ratingVeryGood : String := "Very Good"

/-- Rating string for sharpe in (1, 2]. -/
def ratingGood : String := "Good"

/-- Rating string for sharpe in (0.5, 1]. -/
def ratingAcceptable : String := "Acceptable"

/-- Rating string for sharpe in (0, 0.5]. -/
def ratingPoor : String := "Poor"

/-- Rating string for sharpe at or below 0. -/
def ratingLosing : String := "Losing Money"

/-- Result dictionary of `calculate_sharpe_ratio` (the key
`sharpe_ratio` is rendered here as `sharpe_value`; the formatted
`interpretation` string is not modelled).  Caveats, each flagged at
its use site: when the annualized volatility is zero the Python float
division yields signed infinity while the real-number model yields 0
(`x / 0 = 0`); no claim depends on that value. -/
structure SharpeResult where
  sharpe_value : ℝ
  annualized_return : ℝ
  annualized_volatility : ℝ
  risk_free_rate : ℚ
  rating : String

/-- The rating bucket chain of agent.py lines 291-302. -/
noncomputable def sharpeRating (x : ℝ) : String :=
  if 3 < x then ratingExceptional
  else if 2 < x then ratingVeryGood
  else if 1 < x then ratingGood
  else if 1/2 < x then ratingAcceptable
  else if 0 < x then ratingPoor
  else ratingLosing

/-- `RiskManagementAgent.calculate_sharpe_ratio` (agent.py lines
254-311), named without its suffix for the token rules of this
development.  `(1 + total_return) ** (1/years)` is real
exponentiation; for a base below zero (total return under -100%)
CPython would raise converting to a complex power — `Real.rpow` gives
a junk real value there, and no claim exercises that corner. -/
noncomputable def calculate_sharpe (returns : Option ReturnSeries)
    (risk_free_rate : ℚ) : Option SharpeResult :=
  match returns with
  | none => none
  | some s =>
    if s = [] then none
    else
      let l := seriesVals s
      let total_return : ℚ := (l.map (fun r => 1 + r)).prod - 1
      let years : ℚ := (l.length : ℚ) / 252
      let annualized_return : ℝ :=
        ((1 + total_return : ℚ) : ℝ) ^ ((1 : ℝ) / ((years : ℚ) : ℝ)) - 1
      let annualized_vol : ℝ := Real.sqrt ((sampleVarQ l : ℚ) : ℝ) * Real.sqrt 252
      let sharpe : ℝ := (annualized_return - (risk_free_rate : ℚ)) / annualized_vol
      some { sharpe_value := sharpe
             annualized_return := annualized_return
             annualized_volatility := annualized_vol
             risk_free_rate := risk_free_rate
             rating := sharpeRating sharpe }

/-! Risk assessment orchestrator. -/

/-- The `self.risk_limits` configuration (agent.py lines 15-21). -/
structure RiskLimits where
  var_95 : ℚ
  var_99 : ℚ
  volatility : ℚ
  max_drawdown : ℚ
  min_sharpe : ℚ

/-- Default limit values of agent.py lines 15-21. -/
def riskLimits : RiskLimits :=
  { var_95 := 5/100, var_99 := 10/100, volatility := 30/100
    max_drawdown := 20/100, min_sharpe := 1 }

/-- An alert, kept structured as (metric, observed value, limit); the
source renders each as a formatted warning string. -/
inductive Alert where
  | var95Limit (observed limit : ℚ)
  | var99Limit (observed limit : ℚ)
  | volLimit (observed : ℝ) (limit : ℚ)
  | drawdownLimit (observed limit : ℚ)
  | sharpeLimit (observed : ℝ) (limit : ℚ)

/-- The limit checks of agent.py lines 512-527, in source order.
A `None` metric is falsy and is skipped.  The rolling-mode volatility
dictionary has no `annual_volatility` key, so the source would raise
KeyError on it; that shape is unreachable from `assess_risk`, which
always computes full-period volatility, and is mapped to no alert
here. -/
noncomputable def buildAlerts (v95 v99 : Option VaRResult)
    (vol : Option VolatilityResult) (dd : Option DrawdownResult)
    (sh : Option SharpeResult) (lim : RiskLimits) : List Alert :=
  (match v95 with
   | none => []
   | some r => if lim.var_95 < r.var_pct then [.var95Limit r.var_pct lim.var_95] else [])
  ++ (match v99 with
      | none => []
      | some r => if lim.var_99 < r.var_pct then [.var99Limit r.var_pct lim.var_99] else [])
  ++ (match vol with
      | none => []
      | some (.full f) =>
        if ((lim.volatility : ℚ) : ℝ) < f.annual_volatility then
          [.volLimit f.annual_volatility lim.volatility] else []
      | some (.rolling _) => [])
  ++ (match dd with
      | none => []
      | some d =>
        if lim.max_drawdown < d.max_drawdown then
          [.drawdownLimit d.max_drawdown lim.max_drawdown] else [])
  ++ (match sh with
      | none => []
      | some r =>
        if r.sharpe_value < ((lim.min_sharpe : ℚ) : ℝ) then
          [.sharpeLimit r.sharpe_value lim.min_sharpe] else [])

/-- Overall status string `OK`. -/
def statusOK : String := "OK"

/-- Overall status string `ALERT`. -/
def statusALERT : String := "ALERT"

/-- The assessment dictionary of agent.py lines 530-546.  The symbol
and the wall-clock `assessment_date` are external identification
data and are not modelled. -/
structure Assessment where
  portfolio_value : ℚ
  data_points : ℕ
  var_95 : Option VaRResult
  var_99 : Option VaRResult
  cvar_95 : Option CVaRResult
  cvar_99 : Option CVaRResult
  volatility : Option VolatilityResult
  max_drawdown : Option DrawdownResult
  sharpe : Option SharpeResult
  beta : BetaOutcome
  stress : Option (List (String × StressResult))
  alerts : List Alert
  risk_status : String

/-- Possible outcomes of one `assess_risk` call: the
`Could not fetch data` error dictionary, an uncaught exception, or a
completed assessment. -/
inductive AssessOutcome where
  | fetchError
  | raised (msg : String)
  | ok (a : Assessment)

/-- Boolean test for the completed-assessment shape. -/
def isOkOutcome : AssessOutcome → Bool
  | .ok _ => true
  | _ => false

/-- `RiskManagementAgent.assess_risk` (agent.py lines 480-548).  The
fetched return series and the benchmark series fetched inside
`calculate_beta` are the responses of the external market-data
collaborator, passed as parameters (`none` models a failed fetch).
Only `returns is None` is guarded; an empty series proceeds.  The
metrics are computed in source order; `calculate_max_drawdown` is the
first call that can raise, and an exception there prevents the later
metrics, the alert checks and the assessment from being produced. -/
noncomputable def assess_risk (returns mkt : Option ReturnSeries) (pv : ℚ) :
    AssessOutcome :=
  match returns with
  | none => .fetchError
  | some s =>
    let var_95 := calculate_var (some s) (95/100) pv
    let var_99 := calculate_var (some s) (99/100) pv
    let cvar_95 := calculate_cvar (some s) (95/100) pv
    let cvar_99 := calculate_cvar (some s) (99/100) pv
    let volatility := calculate_volatility (some s) none
    match calculate_max_drawdown (some s) false with
    | .error e => .raised e
    | .ok max_dd =>
      let sharpe := calculate_sharpe (some s) (4/100)
      let beta := calculate_beta s mkt
      let stress := stress_test (some s) pv none
      let alerts := buildAlerts var_95 var_99 volatility max_dd sharpe riskLimits
      .ok { portfolio_value := pv
            data_points := s.length
            var_95 := var_95
            var_99 := var_99
            cvar_95 := cvar_95
            cvar_99 := cvar_99
            volatility := volatility
            max_drawdown := max_dd
            sharpe := sharpe
            beta := beta
            stress := stress
            alerts := alerts
            risk_status := if alerts.isEmpty then statusOK else statusALERT }

/-- The assessment produced for a present-but-empty return series. -/
def emptyAssessment : Assessment :=
  { portfolio_value := 100000
    data_points := 0
    var_95 := none
    var_99 := none
    cvar_95 := none
    cvar_99 := none
    volatility := none
    max_drawdown := none
    sharpe := none
    beta := .noData
    stress := none
    alerts := []
    risk_status := statusOK }

/-! Concrete inputs used by the counterexample and witness theorems. -/

/-- Two identical positive returns: the sample standard deviation is
zero and the VaR tail selection is empty. -/
def constSeries2 : ReturnSeries := [(0, 1/100), (1, 1/100)]

/-- Three identical positive returns: a strictly increasing cumulative
path. -/
def incSeries3 : ReturnSeries := [(0, 1/100), (1, 1/100), (2, 1/100)]

/-! Theorems.  Each claim of the specification audit is settled by one
theorem below, preceded by supporting lemmas where needed. -/

/-- Helper: for every non-empty series the drawdown result dictionary
cannot be built — its interpretation f-string reads the unbound name
`trough_date` — so the function raises. -/
theorem drawdown_raises (s : ReturnSeries) (b : Bool) (h : s ≠ []) :
    calculate_max_drawdown (some s) b = Except.error nameErrTrough := by
  simp [calculate_max_drawdown, h, show ddInterpCheck = false from rfl]

/-- Claim C2: for every non-empty return series,
`calculate_max_drawdown` raises a NameError before returning — the
interpretation string references the never-bound variable
`trough_date` — so no DrawdownResult is ever produced for non-empty
input, whichever index kind the series carries. -/
theorem drawdown_never_returns (s : ReturnSeries) (intIndex : Bool) (h : s ≠ []) :
    calculate_max_drawdown (some s) intIndex = Except.error nameErrTrough :=
  drawdown_raises s intIndex h

/-- Witness for C2 at a concrete one-point series. -/
theorem drawdown_never_returns_witness :
    calculate_max_drawdown (some [((0 : Int), (1 : ℚ)/100)]) true =
      Except.error nameErrTrough :=
  drawdown_never_returns [((0 : Int), (1 : ℚ)/100)] true (by decide)

/-- Claim C4: every estimator (`calculate_var`, `calculate_cvar`,
`calculate_volatility`, `calculate_max_drawdown`, `calculate_sharpe`,
`stress_test`) returns an absent result, raising nothing, on an
absent (`None`) or empty return series, for every choice of the other
arguments. -/
theorem estimators_absent_on_missing_data (conf pv rfr : ℚ) (w : Option ℕ)
    (scens : Option (List (String × ℚ))) (b : Bool) :
    calculate_var none conf pv = none ∧
    calculate_var (some []) conf pv = none ∧
    calculate_cvar none conf pv = none ∧
    calculate_cvar (some []) conf pv = none ∧
    calculate_volatility none w = none ∧
    calculate_volatility (some []) w = none ∧
    calculate_max_drawdown none b = Except.ok none ∧
    calculate_max_drawdown (some []) b = Except.ok none ∧
    calculate_sharpe none rfr = none ∧
    calculate_sharpe (some []) rfr = none ∧
    stress_test none pv scens = none ∧
    stress_test (some []) pv scens = none :=
  ⟨rfl, rfl, rfl, rfl, rfl, rfl, rfl, rfl, rfl, rfl, rfl, rfl⟩

/-- Counterexample for C5: called on a present-but-empty series,
`assess_risk` does not fail — it completes and returns an
assessment. -/
theorem assess_empty_is_ok :
    isOkOutcome (assess_risk (some []) none 100000) = true := rfl

/-- Claim C5 as amended: only an absent (`None`) series makes
`assess_risk` fail with the data-unavailable error result; an empty
series instead yields a completed assessment whose metric results are
all absent, with no alerts and overall status OK. -/
theorem assess_risk_empty_behavior (mkt : Option ReturnSeries) (pv : ℚ) :
    assess_risk none mkt pv = AssessOutcome.fetchError ∧
    assess_risk (some []) mkt pv = AssessOutcome.ok
      { portfolio_value := pv, data_points := 0, var_95 := none, var_99 := none,
        cvar_95 := none, cvar_99 := none, volatility := none, max_drawdown := none,
        sharpe := none, beta := BetaOutcome.noData, stress := none, alerts := [],
        risk_status := statusOK } :=
  ⟨rfl, rfl⟩

/-- Evaluation: values of the strictly increasing three-point path. -/
theorem incSeries3_vals : seriesVals incSeries3 = [1/100, 1/100, 1/100] := rfl

/-- Evaluation: cumulative growth path of three +1% returns. -/
theorem incSeries3_cum :
    cumReturns [(1 : ℚ)/100, 1/100, 1/100] =
      [101/100, 10201/10000, 1030301/1000000] := by
  norm_num [cumReturns, List.scanl]

/-- Evaluation: the running maximum of the increasing path is itself. -/
theorem incSeries3_runmax :
    runningMaxQ [(101 : ℚ)/100, 10201/10000, 1030301/1000000] =
      [101/100, 10201/10000, 1030301/1000000] := by
  norm_num [runningMaxQ, List.scanl, max_def]

/-- Evaluation: the drawdown series of the increasing path is zero. -/
theorem incSeries3_dd : ddListOf [(1 : ℚ)/100, 1/100, 1/100] = [0, 0, 0] := by
  rw [ddListOf, incSeries3_cum, incSeries3_runmax]
  norm_num [List.zipWith]

/-- Claim C3 (code defect): on the strictly increasing path the
internally computed quantities do match the claim — max drawdown `0`,
trough position `0`, peak position `0`, recovery at the first label —
but the function never returns them: building the result raises the
`trough_date` NameError. -/
theorem drawdown_increasing_path_defect :
    maxDDOf (seriesVals incSeries3) = 0 ∧
    troughPosOf (seriesVals incSeries3) = 0 ∧
    peakPosOf (seriesVals incSeries3) = 0 ∧
    recoveryDateOf incSeries3 = some 0 ∧
    calculate_max_drawdown (some incSeries3) false = Except.error nameErrTrough := by
  have hmin : (ddListOf [(1 : ℚ)/100, 1/100, 1/100]).min? = some 0 := by
    rw [incSeries3_dd]
    norm_num [List.min?, List.foldl, min_def]
  have htr : troughPosOf [(1 : ℚ)/100, 1/100, 1/100] = 0 := by
    simp only [troughPosOf, idxminPos, hmin, incSeries3_dd]
    norm_num [List.findIdx_cons]
  have hpk : peakPosOf [(1 : ℚ)/100, 1/100, 1/100] = 0 := by
    simp only [peakPosOf, htr, incSeries3_cum, incSeries3_runmax, List.take_succ_cons,
      List.take_zero, idxmaxPos, List.max?]
    norm_num [List.findIdx_cons]
  refine ⟨?_, ?_, ?_, ?_, drawdown_raises _ false (by decide)⟩
  · simp only [incSeries3_vals, maxDDOf, hmin]
  · simp only [incSeries3_vals, htr]
  · simp only [incSeries3_vals, hpk]
  · simp only [recoveryDateOf, seriesVals, incSeries3, List.map_cons, List.map_nil,
      htr, incSeries3_dd]
    norm_num [List.getD, List.zip, List.zipWith, List.filter]

/-- Helper: the interpolated percentile of a constant list is that
constant, at every percentile rank. -/
theorem percentileQ_const (l : List ℚ) (r q : ℚ) (hne : l ≠ [])
    (hall : ∀ x ∈ l, x = r) : percentileQ l q = r := by
  have hlen : (List.insertionSort (· ≤ ·) l).length = l.length :=
    List.length_insertionSort _ l
  have hget : ∀ i, i < l.length → (List.insertionSort (· ≤ ·) l).getD i 0 = r := by
    intro i hi
    have hi' : i < (List.insertionSort (· ≤ ·) l).length := by rw [hlen]; exact hi
    rw [List.getD_eq_getElem?_getD, List.getElem?_eq_getElem hi']
    exact hall _ ((List.mem_insertionSort _).mp (List.getElem_mem hi'))
  have hn : 0 < l.length := List.length_pos.mpr hne
  simp only [percentileQ]
  split
  next h =>
    rw [hget _ (by omega), hget _ h]
    ring
  next h =>
    rw [hget _ (by omega)]

/-- Claim C10: for a non-empty series of all-identical returns `r` and
any confidence level in (0,1), `calculate_var` reports the loss
fraction `abs r` (and the corresponding dollar loss). -/
theorem var_const_loss_fraction (s : ReturnSeries) (r conf pv : ℚ) (hne : s ≠ [])
    (hconf : 0 < conf ∧ conf < 1) (hall : ∀ x ∈ seriesVals s, x = r) :
    calculate_var (some s) conf pv = some ⟨conf, |r|, |r| * pv⟩ := by
  have hv : seriesVals s ≠ [] := by
    intro h
    simp only [seriesVals, List.map_eq_nil_iff] at h
    exact hne h
  have hp : varLossFraction (seriesVals s) conf = |r| := by
    rw [varLossFraction, percentileQ_const _ r _ hv hall]
  simp [calculate_var, hne, hp]

/-- Witness for C10 at a two-point series of identical -2% returns and
95% confidence. -/
theorem var_const_loss_fraction_witness :
    calculate_var (some [((0 : Int), -(1 : ℚ)/50), (1, -(1 : ℚ)/50)]) (19/20) 100000 =
      some ⟨19/20, |(-(1 : ℚ)/50)|, |(-(1 : ℚ)/50)| * 100000⟩ :=
  var_const_loss_fraction _ (-(1 : ℚ)/50) _ _ (by decide) (by norm_num)
    (by
      intro x hx
      simp only [seriesVals, List.map_cons, List.map_nil, List.mem_cons,
        List.not_mem_nil, or_false] at hx
      rcases hx with h | h <;> exact h)

/-- Helper: the result record `calculate_cvar` builds on a non-empty
series, written out explicitly. -/
theorem calculate_cvar_eq (s : ReturnSeries) (conf pv : ℚ) (hne : s ≠ []) :
    calculate_cvar (some s) conf pv = some
      { confidence := conf
        cvar_pct := (if ((seriesVals s).filter fun r =>
              decide (r ≤ -varLossFraction (seriesVals s) conf)) = [] then (none : Option ℚ)
            else some (meanQ ((seriesVals s).filter fun r =>
              decide (r ≤ -varLossFraction (seriesVals s) conf)))).map (fun c => |c|)
        cvar_dollar := (if ((seriesVals s).filter fun r =>
              decide (r ≤ -varLossFraction (seriesVals s) conf)) = [] then (none : Option ℚ)
            else some (meanQ ((seriesVals s).filter fun r =>
              decide (r ≤ -varLossFraction (seriesVals s) conf)))).map (fun c => |c| * pv)
        num_tail_events := ((seriesVals s).filter fun r =>
          decide (r ≤ -varLossFraction (seriesVals s) conf)).length } := by
  simp only [calculate_cvar]
  rw [if_neg hne]

/-- Claim C1 as amended: for every non-empty series and any
confidence, `calculate_cvar` returns a result; whenever at least one
tail event exists the CVaR loss fraction is defined and is at least
the VaR loss fraction, and with zero tail events the CVaR loss
fraction is the undefined NaN (modelled `none`), not VaR. -/
theorem cvar_tail_mean_vs_var (s : ReturnSeries) (conf pv : ℚ) (hne : s ≠ []) :
    ∃ res, calculate_cvar (some s) conf pv = some res ∧
      (res.num_tail_events = 0 → res.cvar_pct = none) ∧
      (res.num_tail_events ≠ 0 →
        ∃ c, res.cvar_pct = some c ∧ varLossFraction (seriesVals s) conf ≤ c) := by
  refine ⟨_, calculate_cvar_eq s conf pv hne, ?_, ?_⟩
  · intro h0
    have ht : ((seriesVals s).filter fun r =>
        decide (r ≤ -varLossFraction (seriesVals s) conf)) = [] :=
      List.length_eq_zero.mp h0
    simp [ht]
  · intro hl
    have ht : ((seriesVals s).filter fun r =>
        decide (r ≤ -varLossFraction (seriesVals s) conf)) ≠ [] := by
      intro he
      exact hl (by simp [he])
    set v := varLossFraction (seriesVals s) conf with hv
    set tail := (seriesVals s).filter (fun r => decide (r ≤ -v)) with htl
    refine ⟨|meanQ tail|, by simp [ht], ?_⟩
    have hmem : ∀ x ∈ tail, x ≤ -v := by
      intro x hx
      exact of_decide_eq_true (List.mem_filter.mp hx).2
    have hv0 : 0 ≤ v := by
      rw [hv, varLossFraction]
      exact abs_nonneg _
    have hlt : 0 < ((tail.length : ℚ)) := by
      exact_mod_cast List.length_pos.mpr ht
    have hsum : tail.sum ≤ (tail.length : ℚ) * (-v) := by
      have hs := List.sum_le_card_nsmul tail (-v) hmem
      simpa [nsmul_eq_mul] using hs
    have hmean : meanQ tail ≤ -v := by
      rw [meanQ, div_le_iff₀ hlt]
      linarith
    have hnp : meanQ tail ≤ 0 := by linarith
    rw [abs_of_nonpos hnp]
    linarith

/-- Witness for C1 at a two-point series with one negative return:
the tail is non-empty and the tail average dominates VaR. -/
theorem cvar_tail_mean_vs_var_witness :
    ∃ res, calculate_cvar (some [((0 : Int), -(1 : ℚ)/100), (1, (1 : ℚ)/100)])
        (19/20) 100000 = some res ∧
      (res.num_tail_events = 0 → res.cvar_pct = none) ∧
      (res.num_tail_events ≠ 0 → ∃ c, res.cvar_pct = some c ∧
        varLossFraction (seriesVals [((0 : Int), -(1 : ℚ)/100), (1, (1 : ℚ)/100)])
          (19/20) ≤ c) :=
  cvar_tail_mean_vs_var _ _ _ (by decide)

/-- Counterexample for C1: on two identical +1% returns at 95%
confidence the VaR loss fraction is 1/100 but no return lies at or
below the tail threshold, so the CVaR loss fraction is the NaN of a
mean over an empty selection — not VaR as the claim states. -/
theorem cvar_degenerate_is_nan :
    (calculate_cvar (some constSeries2) (19/20) 100000).map CVaRResult.num_tail_events
      = some 0 ∧
    (calculate_cvar (some constSeries2) (19/20) 100000).bind CVaRResult.cvar_pct
      = none ∧
    (calculate_cvar (some constSeries2) (19/20) 100000).bind CVaRResult.cvar_pct
      ≠ some (varLossFraction (seriesVals constSeries2) (19/20)) := by
  have hv : varLossFraction (seriesVals constSeries2) (19/20) = 1/100 := by
    norm_num [varLossFraction, percentileQ, seriesVals, constSeries2,
      List.insertionSort, List.orderedInsert, List.getD]
  have hfil : ((seriesVals constSeries2).filter fun r =>
      decide (r ≤ -varLossFraction (seriesVals constSeries2) (19/20))) = [] := by
    rw [hv]
    norm_num [seriesVals, constSeries2, List.filter]
  have hc : calculate_cvar (some constSeries2) (19/20) 100000 =
      some ⟨19/20, none, none, 0⟩ := by
    rw [calculate_cvar_eq constSeries2 (19/20) 100000 (by decide), hfil]
    rfl
  refine ⟨by rw [hc]; rfl, by rw [hc]; rfl, by rw [hc, hv]; simp⟩

/-- Counterexample for C6: two identical +1% returns have sample
variance zero, hence annualized volatility zero, yet
`calculate_sharpe` still returns a result rather than an
absent/failure value. -/
theorem sharpe_zero_vol_still_returns :
    sampleVarQ (seriesVals constSeries2) = 0 ∧
    (calculate_sharpe (some constSeries2) (4/100)).map SharpeResult.annualized_volatility
      = some 0 ∧
    (calculate_sharpe (some constSeries2) (4/100)).isSome = true := by
  have h0 : sampleVarQ (seriesVals constSeries2) = 0 := by
    norm_num [sampleVarQ, meanQ, seriesVals, constSeries2]
  refine ⟨h0, ?_, ?_⟩
  · simp only [calculate_sharpe]
    rw [if_neg (show ¬ constSeries2 = [] by decide)]
    simp [h0]
  · simp only [calculate_sharpe]
    rw [if_neg (show ¬ constSeries2 = [] by decide)]
    rfl

/-- Claim C6 as amended: `calculate_sharpe` returns a result for every
non-empty series, zero volatility included — the source never guards
the division, whose float value is then signed infinity. -/
theorem sharpe_total_on_nonempty (s : ReturnSeries) (rfr : ℚ) (hne : s ≠ []) :
    (calculate_sharpe (some s) rfr).isSome = true := by
  simp [calculate_sharpe, hne]

/-- Witness for C6 at the concrete zero-variance series. -/
theorem sharpe_total_on_nonempty_witness :
    (calculate_sharpe (some constSeries2) (4/100)).isSome = true :=
  sharpe_total_on_nonempty constSeries2 (4/100) (by decide)

/-- Counterexample for C7: an empty asset series joined with any
benchmark has 0 (< 20) overlapping points, yet `calculate_beta`
returns the plain absent result, not the insufficient-overlap error
dictionary the claim requires. -/
theorem beta_empty_asset_not_overlap_error :
    (innerJoin ([] : ReturnSeries) ([] : ReturnSeries)).length < 20 ∧
    calculate_beta ([] : ReturnSeries) (some ([] : ReturnSeries)) = BetaOutcome.noData ∧
    calculate_beta ([] : ReturnSeries) (some ([] : ReturnSeries)) ≠
      BetaOutcome.insufficientOverlap := by
  refine ⟨by decide, rfl, by decide⟩

/-- Claim C7 as amended: for a non-empty asset series and an available
benchmark, fewer than 20 joined points yield the insufficient-overlap
failure; and whenever the join has fewer than 20 points — or the
benchmark fetch failed — no numeric beta is ever produced. -/
theorem beta_insufficient_overlap (asset mkt : ReturnSeries) (hne : asset ≠ [])
    (hov : (innerJoin asset mkt).length < 20) :
    calculate_beta asset (some mkt) = BetaOutcome.insufficientOverlap ∧
    (∀ a m : ReturnSeries, (innerJoin a m).length < 20 →
      ∀ r, calculate_beta a (some m) ≠ BetaOutcome.ok r) ∧
    (∀ a : ReturnSeries, ∀ r, calculate_beta a none ≠ BetaOutcome.ok r) := by
  refine ⟨by simp [calculate_beta, hne, hov], ?_, ?_⟩
  · intro a m hov2 r
    by_cases ha : a = []
    · simp [calculate_beta, ha]
    · simp [calculate_beta, ha, hov2]
  · intro a r
    by_cases ha : a = []
    · simp [calculate_beta, ha]
    · simp [calculate_beta, ha]

/-- Witness for C7 at a one-point asset series and an empty benchmark
series (zero overlapping points). -/
theorem beta_insufficient_overlap_witness :
    calculate_beta [((0 : Int), (1 : ℚ)/100)] (some ([] : ReturnSeries)) =
      BetaOutcome.insufficientOverlap :=
  (beta_insufficient_overlap [((0 : Int), (1 : ℚ)/100)] [] (by decide) (by decide)).1

/-- Claim C9 as amended: for every scenario table, portfolio value and
non-empty series, `stress_test` maps each scenario through
`stressOne`, whose shocked value is `pv * (1 + shock)` and whose loss
is the difference; the -20% shock on 100000 yields 80000 and 20000
for every average daily return; and the reported recovery days are
defined exactly when the average daily return is positive, truncated
to the integer part of `abs shock / avg`. -/
theorem stress_structure (s : ReturnSeries) (pv : ℚ) (scens : List (String × ℚ))
    (hne : s ≠ []) :
    stress_test (some s) pv (some scens) =
      some (scens.map (fun p => (p.1, stressOne pv p.2 (meanQ (seriesVals s))))) ∧
    (∀ shock avg : ℚ, (stressOne pv shock avg).shocked_value = pv * (1 + shock) ∧
      (stressOne pv shock avg).loss_amount = pv - pv * (1 + shock)) ∧
    (∀ avg : ℚ, (stressOne 100000 (-20/100) avg).shocked_value = 80000 ∧
      (stressOne 100000 (-20/100) avg).loss_amount = 20000) ∧
    (∀ shock avg : ℚ, (stressOne pv shock avg).days_to_recover =
      if 0 < avg then some (Int.floor (|shock| / avg)) else none) := by
  refine ⟨by simp [stress_test, hne], fun shock avg => ⟨rfl, rfl⟩, fun avg => ?_, fun shock avg => rfl⟩
  constructor
  · show (100000 : ℚ) * (1 + -20/100) = 80000
    norm_num
  · show (100000 : ℚ) - 100000 * (1 + -20/100) = 20000
    norm_num

/-- Witness for C9: the -20% scenario on a 100000 portfolio. -/
theorem stress_structure_witness :
    (stressOne 100000 (-20/100) 0).shocked_value = 80000 ∧
    (stressOne 100000 (-20/100) 0).loss_amount = 20000 :=
  (stress_structure [((0 : Int), (1 : ℚ)/100)] 100000 [] (by decide)).2.2.1 0

/-- Counterexample for C9: with average daily return 0.003 and a -20%
shock the quotient is 200/3 but the stored recovery days are the
truncated integer 66, so the reported value is not the claimed exact
quotient. -/
theorem stress_recovery_days_truncated :
    stress_test (some [((0 : Int), (3 : ℚ)/1000)]) 100000
        (some [(r"Bear Market -20", -20/100)]) =
      some [(r"Bear Market -20", stressOne 100000 (-20/100) (3/1000))] ∧
    (stressOne 100000 (-20/100) (3/1000)).days_to_recover = some 66 ∧
    ((66 : ℚ) ≠ |(-20/100 : ℚ)| / (3/1000)) := by
  have hab : |(-20/100 : ℚ)| = 1/5 := by
    rw [abs_of_nonpos (by norm_num)]
    norm_num
  refine ⟨?_, ?_, by rw [hab]; norm_num⟩
  · have hm : meanQ (seriesVals [((0 : Int), (3 : ℚ)/1000)]) = 3/1000 := by
      norm_num [meanQ, seriesVals]
    simp [stress_test, hm]
  · have hab2 : |(1 : ℚ)/5| = 1/5 := abs_of_nonneg (by norm_num)
    norm_num [stressOne, hab2]

/-- Claim C8: every completed assessment carries exactly the alerts of
the source limit checks — one per present metric whose observed value
breaches its configured limit (VaR 95/99 and volatility and drawdown
above their maxima, Sharpe below its minimum) — and the overall
status is ALERT exactly when the alert list is non-empty.  Note that
because the drawdown defect (C2) aborts `assess_risk` on every
non-empty series, the only completed assessments carry no metrics, so
each breach test is settled with both sides false. -/
theorem assess_alerts_iff (returns mkt : Option ReturnSeries) (pv : ℚ)
    (a : Assessment) (h : assess_risk returns mkt pv = AssessOutcome.ok a) :
    (a.risk_status = statusALERT ↔ a.alerts ≠ []) ∧
    a.alerts = buildAlerts a.var_95 a.var_99 a.volatility a.max_drawdown a.sharpe
      riskLimits ∧
    ((∃ o l, Alert.var95Limit o l ∈ a.alerts) ↔
      ∃ r, a.var_95 = some r ∧ riskLimits.var_95 < r.var_pct) ∧
    ((∃ o l, Alert.var99Limit o l ∈ a.alerts) ↔
      ∃ r, a.var_99 = some r ∧ riskLimits.var_99 < r.var_pct) ∧
    ((∃ o l, Alert.volLimit o l ∈ a.alerts) ↔
      ∃ f, a.volatility = some (VolatilityResult.full f) ∧
        (((riskLimits.volatility : ℚ) : ℝ)) < f.annual_volatility) ∧
    ((∃ o l, Alert.drawdownLimit o l ∈ a.alerts) ↔
      ∃ d, a.max_drawdown = some d ∧ riskLimits.max_drawdown < d.max_drawdown) ∧
    ((∃ o l, Alert.sharpeLimit o l ∈ a.alerts) ↔
      ∃ r, a.sharpe = some r ∧ r.sharpe_value < (((riskLimits.min_sharpe : ℚ) : ℝ))) := by
  cases returns with
  | none => exact absurd h (by simp [assess_risk])
  | some s =>
    by_cases hs : s = []
    · subst hs
      have hE : assess_risk (some []) mkt pv = AssessOutcome.ok
          { portfolio_value := pv, data_points := 0, var_95 := none, var_99 := none,
            cvar_95 := none, cvar_99 := none, volatility := none, max_drawdown := none,
            sharpe := none, beta := BetaOutcome.noData, stress := none, alerts := [],
            risk_status := statusOK } := rfl
      rw [hE] at h
      injection h with hEq
      subst hEq
      refine ⟨?_, rfl, by simp, by simp, by simp, by simp, by simp⟩
      constructor
      · intro hx
        have hx2 : statusOK = statusALERT := hx
        exact absurd hx2 (by decide)
      · intro hx
        exact absurd rfl hx
    · exfalso
      have hd := drawdown_raises s false hs
      simp only [assess_risk] at h
      rw [hd] at h
      exact absurd h (by simp)

/-- Witness for C8: the status-alert equivalence at the concrete
empty-series assessment. -/
theorem assess_alerts_iff_witness :
    emptyAssessment.risk_status = statusALERT ↔ emptyAssessment.alerts ≠ [] :=
  (assess_alerts_iff (some []) none 100000 emptyAssessment rfl).1
